import Mathlib

/-
Verification development for the heartpy visualization module
(src/heartpy/visualizeutils.py).

The Python functions `plotter`, `segment_plotter`, `plot_poincare`,
`rotate_vec` and `report` are embedded shallowly:

* dictionaries become records whose possibly-absent keys are `Option` fields;
* a Python value that may be either a plain `list` or a numpy array is the
  inductive `PySeq` (elementwise division is only defined on arrays, like in
  Python where `list / float` raises `TypeError`);
* raising exceptions becomes returning `Except PyErr` (or, for the batch
  driver, an explicit result record that also carries the files written
  before the failure);
* the filesystem is abstracted by an `isdir : String → Bool` oracle plus a
  `mkdirCalled` flag and the list of file names passed to `savefig`;
* numeric values are ℚ (exact rational arithmetic in place of floats) and
  the trigonometric geometry of the Poincaré plot lives in ℝ.

Rendering-only details (colors, legends, titles, figure sizes, the identity
line of the Poincaré scatter and the `show` flag) carry no logic and are not
modelled; the modelled output records keep exactly the data the plotting
backend would receive for the series, bands, lines and the ellipse.
-/

namespace HeartPyViz

/-- Python exceptions that the embedded code can raise.  `keyError` and
`indexError` are the two Python `LookupError` subclasses; `assertionError`
models a failed `assert` statement (the InvalidArgument of the spec). -/
inductive PyErr where
  | keyError (key : String)
  | indexError
  | typeError
  | zeroDivisionError
  | assertionError (msg : String)
deriving DecidableEq, Repr

/-- The Python `LookupError` hierarchy: `KeyError` and `IndexError`. -/
def PyErr.isLookup : PyErr → Bool
  | .keyError _ => true
  | .indexError => true
  | _ => false

/-- Whether an error is a failed precondition assertion (the
InvalidArgument error of the spec). -/
def PyErr.isAssert : PyErr → Bool
  | .assertionError _ => true
  | _ => false

/-- Whether an optional error is an InvalidArgument (assertion) failure. -/
def isInvalidArg : Option PyErr → Bool
  | some e => e.isAssert
  | none => false

/-- A Python sequence value that is either a plain `list` or a numpy
array.  Both support `len`, indexing and being drawn; only the array
supports elementwise division by a scalar. -/
inductive PySeq where
  | pylist (elemsOf : List ℚ)
  | nparray (elemsOf : List ℚ)
deriving DecidableEq, Repr

/-- The underlying elements of a Python sequence. -/
def PySeq.elems : PySeq → List ℚ
  | .pylist l => l
  | .nparray l => l

/-- Embedding of `np.asarray`: converts a plain list to an array, leaves
arrays alone. -/
def np_asarray : PySeq → PySeq
  | .pylist l => .nparray l
  | .nparray l => .nparray l

/-- Elementwise division of a sequence by a scalar.  numpy arrays support
it; a plain Python list does not (`TypeError`), which is what
`plotter` line 99 does to `removed_beats` without converting it first. -/
def pySeqDivScalar : PySeq → ℚ → Except PyErr (List ℚ)
  | .nparray l, fs => .ok (l.map (fun v => v / fs))
  | .pylist _, _ => .error .typeError

/-- The `rejected_segments` entry of a working-data dict: the key can be
absent, hold a malformed value (anything that fails inside the
`try: if len(...) >= 1: for segment in ...` block, e.g. a number), or hold
a proper list of `(start, stop)` pairs. -/
inductive RejSegs where
  | absent
  | malformed
  | present (segs : List (ℚ × ℚ))
deriving DecidableEq, Repr

/-- The vertical bands drawn by `plotter` lines 102-107: the whole access
is wrapped in `try/except: pass`, so an absent key or a malformed value
silently yields no bands; a present list yields one band per pair. -/
def rejectedSpans : RejSegs → List (ℚ × ℚ)
  | .present l => l
  | _ => []

/-- The working-data dict as consumed by `plotter` (lines 81-107).  Every
key the function reads unconditionally is an `Option` field, `none`
meaning the key is missing from the dict (a `KeyError` on access). -/
structure PlotWD where
  sample_rate : Option ℚ
  hr : Option PySeq
  peaklist : Option PySeq
  ybeat : Option PySeq
  removed_beats : Option PySeq
  removed_beats_y : Option PySeq
  rolling_mean : Option PySeq
  rejected_segments : RejSegs
deriving DecidableEq, Repr

/-- The figure produced by `plotter`: the data handed to the rendering
backend (series, scatter coordinates, bands), ignoring colors/labels. -/
structure PlotFig where
  hr : PySeq
  ma_drawn : Bool
  bpm_label : ℚ
  peaks_x : List ℚ
  peaks_y : PySeq
  rejected_x : List ℚ
  rejected_y : PySeq
  bands : List (ℚ × ℚ)
deriving DecidableEq, Repr

/-- Reading `d[key]` from a dict: `KeyError` when the key is absent. -/
def dictGet {α : Type} : Option α → String → Except PyErr α
  | some a, _ => .ok a
  | none, key => .error (.keyError key)

/-- Reading `l[i]` from a Python list at a non-negative index:
`IndexError` when the index is out of range. -/
def pyListGet {α : Type} (l : List α) (i : ℕ) : Except PyErr α :=
  match l.get? i with
  | some a => .ok a
  | none => .error .indexError

/-- Embedding of `plotter` (visualizeutils.py lines 77-114), in source
order: read `sample_rate` (line 81), build the time axis (line 82, a
`ZeroDivisionError` when `sample_rate` is 0 because of `1/fs`), read the
peak fields (lines 84-87), read `rolling_mean` only when the
moving-average overlay is on (lines 95-96), read `bpm` for the scatter
label (line 98), divide `removed_beats` by the sample rate without
converting it (line 99), and collect the rejected-segment bands under
`try/except: pass` (lines 102-107). -/
def plotter (wd : PlotWD) (mbpm : Option ℚ) (moving_average : Bool) :
    Except PyErr PlotFig := do
  let fs ← dictGet wd.sample_rate "sample_rate"
  let hr ← dictGet wd.hr "hr"
  if fs = 0 then Except.error PyErr.zeroDivisionError else do
  let peaklist ← dictGet wd.peaklist "peaklist"
  let ybeat ← dictGet wd.ybeat "ybeat"
  let rejectedpeaks ← dictGet wd.removed_beats "removed_beats"
  let rejectedpeaks_y ← dictGet wd.removed_beats_y "removed_beats_y"
  let maDrawn ←
    if moving_average then do
      let _ ← dictGet wd.rolling_mean "rolling_mean"
      Except.ok true
    else Except.ok false
  let bpm ← dictGet mbpm "bpm"
  let rejected_x ← pySeqDivScalar rejectedpeaks fs
  Except.ok
    { hr := hr
      ma_drawn := maDrawn
      bpm_label := bpm
      peaks_x := (np_asarray peaklist).elems.map (fun v => v / fs)
      peaks_y := ybeat
      rejected_x := rejected_x
      rejected_y := rejectedpeaks_y
      bands := rejectedSpans wd.rejected_segments }

/-- The multi-segment working-data dict as consumed by `segment_plotter`
(lines 162-202): each field is the outer per-segment list; `rolling_mean`
and `rejected_segments` keys may be absent (`rolling_mean` is read outside
any `try`, `rejected_segments` inside `try/except: pass`).  The segment
count of the record is `hr.length` (the `len` of the `hr` entry). -/
structure SegWD where
  hr : List PySeq
  peaklist : List PySeq
  ybeat : List PySeq
  removed_beats : List PySeq
  removed_beats_y : List PySeq
  rolling_mean : Option (List PySeq)
  rejected_segments : Option (List (List (ℚ × ℚ)))
deriving DecidableEq, Repr

/-- The per-iteration body of `segment_plotter` lines 182-195: build the
transient `wd_segment`/`m_segment` dicts for segment `i`.  The reads
happen in source order (`peaklist`, `ybeat`, `removed_beats`,
`removed_beats_y`, `hr`, then `rolling_mean` — a `KeyError` when the key
is absent, an `IndexError` when segment `i` is out of range — then
`bpm`); only the `rejected_segments` access is inside `try/except`, so
its absence leaves the key out of the transient dict.  Note that the
constructed dict has no `sample_rate` key. -/
def extractSegment (wd : SegWD) (bpm : List ℚ) (i : ℕ) :
    Except PyErr (PlotWD × ℚ) := do
  let pl ← pyListGet wd.peaklist i
  let yb ← pyListGet wd.ybeat i
  let rb ← pyListGet wd.removed_beats i
  let rby ← pyListGet wd.removed_beats_y i
  let hri ← pyListGet wd.hr i
  let rmOuter ← dictGet wd.rolling_mean "rolling_mean"
  let rmi ← pyListGet rmOuter i
  let bpmi ← pyListGet bpm i
  let rsi : RejSegs :=
    match wd.rejected_segments with
    | some outer =>
      match outer.get? i with
      | some v => RejSegs.present v
      | none => RejSegs.absent
    | none => RejSegs.absent
  Except.ok
    ({ sample_rate := none
       hr := some hri
       peaklist := some pl
       ybeat := some yb
       removed_beats := some rb
       removed_beats_y := some rby
       rolling_mean := some rmi
       rejected_segments := rsi }, bpmi)

/-- The Python `path.endswith(c)` check for a single-character suffix: the last
character of the string is `c`. -/
def endsWithChar (s : String) (c : Char) : Bool :=
  s.data.getLast? == some c

/-- Lines 172-177 of `segment_plotter`: append a trailing `/` when the
path is non-empty and ends with neither `/` nor `\`, and — only inside
that same branch — call `os.makedirs` when the resulting directory does
not exist.  Returns the path used for output files and whether
`makedirs` was called.  The filesystem is the oracle `isdir`. -/
def normalizePath (path : String) (isdir : String → Bool) : String × Bool :=
  if !(endsWithChar path '/' || endsWithChar path '\\') && path.length != 0 then
    let p := path ++ "/"
    (p, !isdir p)
  else
    (path, false)

/-- The Python `range(start, stop, step)` for a positive step: the indices
`start, start + step, ...` that are `< stop`. -/
def pyRange (start stop step : ℕ) : List ℕ :=
  List.range' start ((stop - start + step - 1) / step) step

/-- The plotting loop of `segment_plotter` lines 180-202: for each visited
index extract the segment, call `plotter(wd_segment, m_segment,
show=False)` (the moving-average overlay stays at its `False` default),
and on success save the figure as `<path><filenum>.png` where `filenum`
counts visited segments from 0.  Returns the file names written in order
and the first uncaught exception, if any. -/
def segLoop (wd : SegWD) (bpm : List ℚ) (p : String) :
    List ℕ → ℕ → List String × Option PyErr
  | [], _ => ([], none)
  | i :: rest, filenum =>
    match extractSegment wd bpm i with
    | .error e => ([], some e)
    | .ok seg =>
      match plotter seg.1 (some seg.2) false with
      | .error e => ([], some e)
      | .ok _ =>
        let res := segLoop wd bpm p rest (filenum + 1)
        ((p ++ toString filenum ++ ".png") :: res.1, res.2)

/-- Observable outcome of one `segment_plotter` call: the uncaught
exception (if any), the image files written before it, whether
`os.makedirs` ran, and the output path prefix used for the files. -/
structure SegResult where
  err : Option PyErr
  files : List String
  mkdirCalled : Bool
  outPath : String
deriving DecidableEq, Repr

/-- The part of `segment_plotter` after the two asserts: normalize the
path, then run the plotting loop over `range(start, end, step)`. -/
def segRun (wd : SegWD) (bpm : List ℚ) (isdir : String → Bool)
    (path : String) (start stop stepN : ℕ) : SegResult :=
  let np := normalizePath path isdir
  let res := segLoop wd bpm np.1 (pyRange start stop stepN) 0
  { err := res.2, files := res.1, mkdirCalled := np.2, outPath := np.1 }

/-- Embedding of `segment_plotter` (visualizeutils.py lines 116-202).
First the sanity assert `0 < step < segment count` (line 163, the segment
then the default/check for `end` (lines 166-170: `end = None` defaults to
count being the length of the `hr` entry), then the default/check for
`end` (lines 166-170: `end = None` defaults to the segment count, an
explicit `end` must not exceed it),
then path normalization and the plotting loop.  A failed assert aborts
before any rendering, directory creation or file write. -/
def segment_plotter (wd : SegWD) (bpm : List ℚ) (isdir : String → Bool)
    (path : String) (start : ℕ) (endIdx : Option ℕ) (step : ℤ) : SegResult :=
  if 0 < step ∧ step < (wd.hr.length : ℤ) then
    match endIdx with
    | some e =>
      if e ≤ wd.hr.length then
        segRun wd bpm isdir path start e step.toNat
      else
        { err := some (.assertionError "end larger than number of segments")
          files := [], mkdirCalled := false, outPath := path }
    | none => segRun wd bpm isdir path start wd.hr.length step.toNat
  else
    { err := some (.assertionError "step out of range")
      files := [], mkdirCalled := false, outPath := path }

/-- Sign flag of a Python format specification: `+` prints a sign for
every number, a space flag prints a space in place of `+`, and no flag
prints a sign only for negative numbers. -/
inductive PySign where
  | plus
  | space
  | minusOnly
deriving DecidableEq, Repr

/-- The parts of a Python `g`-type float format specification that the
`report` function varies: sign flag, alternate form (`#`: keep trailing
zeros), zero padding flag, minimum field width (0 when unspecified) and
precision (number of significant digits for type `g`). -/
structure FloatFmt where
  sign : PySign
  alternateForm : Bool
  zeroPad : Bool
  width : ℕ
  precision : ℕ
deriving DecidableEq, Repr

/-- The sign prefix that a value receives under a format spec: `-` for a
negative value, otherwise the marker demanded by the sign flag. -/
def signPrefix (f : FloatFmt) (v : ℚ) : String :=
  if v < 0 then "-"
  else
    match f.sign with
    | .plus => "+"
    | .space => " "
    | .minusOnly => ""

/-- Whether nonnegative values get an explicit sign marker (a leading
`+` or sign-space) under this format. -/
def hasExplicitSign (f : FloatFmt) : Bool :=
  f.sign != PySign.minusOnly

/-- The value format of the metrics-table rows of `report` (lines
496-499): in CSV mode the spec is `#.9g` (alternate form, 9 significant
digits, no sign flag), in console/table mode it is `< #15.3g`
(left-aligned in 15 columns, space sign flag, alternate form, 3
significant digits). -/
def tableValueFmt (csvfile : Bool) : FloatFmt :=
  if csvfile then
    { sign := .minusOnly, alternateForm := true, zeroPad := false
      width := 0, precision := 9 }
  else
    { sign := .space, alternateForm := true, zeroPad := false
      width := 15, precision := 3 }

/-- The value format of the three summary rows of `report` (lines
505-509): in CSV mode the spec is `#0.3g` (alternate form, zero flag, 3
significant digits, no sign flag), in console/table mode it is the same
`< #15.3g` spec as the table rows. -/
def summaryValueFmt (csvfile : Bool) : FloatFmt :=
  if csvfile then
    { sign := .minusOnly, alternateForm := true, zeroPad := true
      width := 0, precision := 3 }
  else
    { sign := .space, alternateForm := true, zeroPad := false
      width := 15, precision := 3 }

/-- The metric-key to display-label mapping of `report` (lines 444-484),
with the upper-cased raw key as fallback. -/
def label_formatter (m : String) : String :=
  if m = "ibi" then "IBI (ms)"
  else if m = "sdnn" then "SDNN (ms)"
  else if m = "sdsd" then "SDSD (ms)"
  else if m = "rmssd" then "RMSSD (ms)"
  else if m = "pnn20" then "pNN20"
  else if m = "pnn50" then "pNN50"
  else if m = "hr_mad" then "HR_MAD (ms)"
  else if m = "sd1" then "SD1 (ms)"
  else if m = "sd2" then "SD2 (ms)"
  else if m = "s" then "S (ms^2)"
  else if m = "vlf" then "VLF (ms^2)"
  else if m = "lf" then "LF (ms^2)"
  else if m = "hf" then "HF (ms^2)"
  else if m = "p_total" then "P_total (ms^2)"
  else if m = "vlf_perc" then "VLF %"
  else if m = "lf_perc" then "LF %"
  else if m = "hf_perc" then "HF %"
  else if m = "lf_nu" then "LF (nu)"
  else if m = "hf_nu" then "HF (nu)"
  else m.toUpper

/-- One value row of the report: display label, the format spec its value
is rendered with, and the exact value. -/
structure ReportLine where
  label : String
  fmt : FloatFmt
  value : ℚ
deriving DecidableEq, Repr

/-- The value rows of a finished report, split into the metrics table and
the three summary rows (`Best MA (%)`, `Excl. peaks`, `Excl. %`). -/
structure ReportOut where
  tableLines : List ReportLine
  summaryLines : List ReportLine
deriving DecidableEq, Repr

/-- The working-data fields that `report` reads (lines 511-515). -/
structure ReportWD where
  best : ℚ
  removed_beats : List ℚ
  RR_list : List ℚ
deriving DecidableEq, Repr

/-- Embedding of `report` (visualizeutils.py lines 431-524): one table
row per measure in order, then the three summary rows.  The rejection
percentage `100 * len(removed_beats) / len(RR_list)` (line 515) raises an
uncaught `ZeroDivisionError` when `RR_list` is empty; since the function
builds the whole string before printing or writing it (lines 519-524),
the failure yields no output at all. -/
def report (measures : List (String × ℚ)) (wd : ReportWD) (csvfile : Bool) :
    Except PyErr ReportOut :=
  let tbl := measures.map
    (fun kv => ReportLine.mk (label_formatter kv.1) (tableValueFmt csvfile) kv.2)
  let n_rmbeats : ℚ := (wd.removed_beats.length : ℚ)
  if wd.RR_list.length = 0 then
    .error .zeroDivisionError
  else
    let pc_rmbeats := 100 * n_rmbeats / (wd.RR_list.length : ℚ)
    .ok
      { tableLines := tbl
        summaryLines :=
          [ ReportLine.mk "Best MA (%)" (summaryValueFmt csvfile) wd.best
          , ReportLine.mk "Excl. peaks" (summaryValueFmt csvfile) n_rmbeats
          , ReportLine.mk "Excl. %" (summaryValueFmt csvfile) pc_rmbeats ] }

/-- Embedding of `np.radians`: degrees to radians. -/
noncomputable def np_radians (angle : ℝ) : ℝ := angle * (Real.pi / 180)

/-- Embedding of `rotate_vec` (visualizeutils.py lines 296-340): rotate
the vector `(x, y)` about the origin by `angle` degrees. -/
noncomputable def rotate_vec (x y angle : ℝ) : ℝ × ℝ :=
  let theta := np_radians angle
  let cs := Real.cos theta
  let sn := Real.sin theta
  (x * cs - y * sn, x * sn + y * cs)

/-- Embedding of `np.mean` on a list. -/
noncomputable def np_mean (l : List ℝ) : ℝ := l.sum / l.length

/-- A two-point line as drawn by `ax.plot([x0, x1], [y0, y1])`. -/
structure PlotLine where
  x0 : ℝ
  x1 : ℝ
  y0 : ℝ
  y1 : ℝ

/-- The ellipse artist added by `plot_poincare`: center, full width, full
height, angle in degrees and fill state. -/
structure EllipseSpec where
  centerX : ℝ
  centerY : ℝ
  width : ℝ
  height : ℝ
  angle : ℝ
  filled : Bool

/-- The geometric content of the Poincaré figure: the interval scatter,
the SD1 and SD2 lines and the ellipse. -/
structure PoincareFig where
  scatter_x : List ℝ
  scatter_y : List ℝ
  sd1_line : PlotLine
  sd2_line : PlotLine
  ellipse : EllipseSpec

/-- Embedding of `plot_poincare` (visualizeutils.py lines 205-293),
geometry only: rotate `(0, sd1)` and `(0, sd2)` by 45 degrees (lines
266-267), draw the SD1 line from the scatter mean to the mean plus the
rotated SD1 vector (lines 270-272), draw the SD2 line with the rotated x
component negated (lines 273-275), and add an unfilled ellipse centered
at the means with width `sd2 * 2`, height `sd1 * 2` and angle 45 (lines
278-283). -/
noncomputable def plot_poincare (x_plus x_minus : List ℝ) (sd1 sd2 : ℝ) :
    PoincareFig :=
  let sd1rot := rotate_vec 0 sd1 45
  let sd2rot := rotate_vec 0 sd2 45
  let xmn := np_mean x_plus
  let ymn := np_mean x_minus
  { scatter_x := x_plus
    scatter_y := x_minus
    sd1_line :=
      { x0 := np_mean x_plus, x1 := np_mean x_plus + sd1rot.1
        y0 := np_mean x_minus, y1 := np_mean x_minus + sd1rot.2 }
    sd2_line :=
      { x0 := np_mean x_plus, x1 := np_mean x_plus - sd2rot.1
        y0 := np_mean x_minus, y1 := np_mean x_minus + sd2rot.2 }
    ellipse :=
      { centerX := xmn, centerY := ymn
        width := sd2 * 2, height := sd1 * 2
        angle := 45.0, filled := false } }

/-- A concrete well-formed 2-segment working-data record: every
per-segment list has length 2 and `rolling_mean` is present. -/
def segWDex : SegWD :=
  { hr := [PySeq.nparray [1, 2], PySeq.nparray [3, 4]]
    peaklist := [PySeq.nparray [0], PySeq.nparray [1]]
    ybeat := [PySeq.pylist [1], PySeq.pylist [3]]
    removed_beats := [PySeq.nparray [], PySeq.nparray []]
    removed_beats_y := [PySeq.pylist [], PySeq.pylist []]
    rolling_mean := some [PySeq.nparray [1, 1], PySeq.nparray [3, 3]]
    rejected_segments := none }

/-- The same 2-segment record with the `rolling_mean` key absent. -/
def segWDnoRM : SegWD :=
  { segWDex with rolling_mean := none }

/-- The working-data record of the report scenario: best MA 30, two
removed beats, two RR intervals. -/
def reportWDex : ReportWD :=
  { best := 30, removed_beats := [1, 2], RR_list := [800, 810] }

/-- A working-data record with an empty `RR_list`. -/
def reportWDempty : ReportWD :=
  { best := 0, removed_beats := [], RR_list := [] }

/-- The report produced for the single measure `sdnn = 72` on
`reportWDex` in console mode. -/
def reportOutEx : ReportOut :=
  { tableLines := [ReportLine.mk "SDNN (ms)" (tableValueFmt false) 72]
    summaryLines :=
      [ ReportLine.mk "Best MA (%)" (summaryValueFmt false) 30
      , ReportLine.mk "Excl. peaks" (summaryValueFmt false) 2
      , ReportLine.mk "Excl. %" (summaryValueFmt false) 100 ] }

/- ----------------------------------------------------------------- -/
/- Helper lemmas                                                      -/
/- ----------------------------------------------------------------- -/

theorem exc_bind_ok {α β : Type} (a : α) (f : α → Except PyErr β) :
    (Except.ok a >>= f) = f a := rfl

theorem exc_bind_error {α β : Type} (e : PyErr) (f : α → Except PyErr β) :
    ((Except.error e : Except PyErr α) >>= f) = Except.error e := rfl

theorem dictGet_some {α : Type} (a : α) (k : String) :
    dictGet (some a) k = Except.ok a := rfl

theorem dictGet_none {α : Type} (k : String) :
    dictGet (none : Option α) k = Except.error (PyErr.keyError k) := rfl

theorem pyListGet_eq {α : Type} (l : List α) (i : ℕ) :
    (∃ a, l.get? i = some a ∧ pyListGet l i = Except.ok a) ∨
    (l.length ≤ i ∧ pyListGet l i = Except.error PyErr.indexError) := by
  cases h : l.get? i with
  | none => exact Or.inr ⟨List.get?_eq_none.mp h, by simp only [pyListGet, h]⟩
  | some a => exact Or.inl ⟨a, rfl, by simp only [pyListGet, h]⟩

/-- Every failure of the per-segment extraction is a Python
`LookupError` (`KeyError` or `IndexError`), and every success yields a
transient dict without a `sample_rate` key. -/
theorem extractSegment_spec (wd : SegWD) (bpm : List ℚ) (i : ℕ) :
    (∃ e, extractSegment wd bpm i = Except.error e ∧ e.isLookup = true) ∨
    (∃ seg, extractSegment wd bpm i = Except.ok seg ∧
      seg.1.sample_rate = none) := by
  unfold extractSegment
  rcases pyListGet_eq wd.peaklist i with ⟨a1, -, h1⟩ | ⟨-, h1⟩
  on_goal 2 =>
    refine Or.inl ⟨PyErr.indexError, ?_, rfl⟩
    simp only [h1, exc_bind_error]
  rcases pyListGet_eq wd.ybeat i with ⟨a2, -, h2⟩ | ⟨-, h2⟩
  on_goal 2 =>
    refine Or.inl ⟨PyErr.indexError, ?_, rfl⟩
    simp only [h1, h2, exc_bind_ok, exc_bind_error]
  rcases pyListGet_eq wd.removed_beats i with ⟨a3, -, h3⟩ | ⟨-, h3⟩
  on_goal 2 =>
    refine Or.inl ⟨PyErr.indexError, ?_, rfl⟩
    simp only [h1, h2, h3, exc_bind_ok, exc_bind_error]
  rcases pyListGet_eq wd.removed_beats_y i with ⟨a4, -, h4⟩ | ⟨-, h4⟩
  on_goal 2 =>
    refine Or.inl ⟨PyErr.indexError, ?_, rfl⟩
    simp only [h1, h2, h3, h4, exc_bind_ok, exc_bind_error]
  rcases pyListGet_eq wd.hr i with ⟨a5, -, h5⟩ | ⟨-, h5⟩
  on_goal 2 =>
    refine Or.inl ⟨PyErr.indexError, ?_, rfl⟩
    simp only [h1, h2, h3, h4, h5, exc_bind_ok, exc_bind_error]
  rcases hrm : wd.rolling_mean with - | rmOuter
  on_goal 1 =>
    refine Or.inl ⟨PyErr.keyError "rolling_mean", ?_, rfl⟩
    simp only [h1, h2, h3, h4, h5, hrm, dictGet_none, exc_bind_ok,
      exc_bind_error]
  rcases pyListGet_eq rmOuter i with ⟨a6, -, h6⟩ | ⟨-, h6⟩
  on_goal 2 =>
    refine Or.inl ⟨PyErr.indexError, ?_, rfl⟩
    simp only [h1, h2, h3, h4, h5, hrm, dictGet_some, h6, exc_bind_ok,
      exc_bind_error]
  rcases pyListGet_eq bpm i with ⟨a7, -, h7⟩ | ⟨-, h7⟩
  on_goal 2 =>
    refine Or.inl ⟨PyErr.indexError, ?_, rfl⟩
    simp only [h1, h2, h3, h4, h5, hrm, dictGet_some, h6, h7, exc_bind_ok,
      exc_bind_error]
  refine Or.inr ⟨({ sample_rate := none
                    hr := some a5
                    peaklist := some a1
                    ybeat := some a2
                    removed_beats := some a3
                    removed_beats_y := some a4
                    rolling_mean := some a6
                    rejected_segments :=
                      match wd.rejected_segments with
                      | some outer =>
                        match outer.get? i with
                        | some v => RejSegs.present v
                        | none => RejSegs.absent
                      | none => RejSegs.absent }, a7), ?_, rfl⟩
  simp only [h1, h2, h3, h4, h5, hrm, dictGet_some, h6, h7, exc_bind_ok]

/-- A working-data dict without the `sample_rate` key makes `plotter`
fail immediately with `KeyError` on its first read (line 81). -/
theorem plotter_no_sample_rate (wd : PlotWD) (h : wd.sample_rate = none)
    (mbpm : Option ℚ) (ma : Bool) :
    plotter wd mbpm ma = Except.error (PyErr.keyError "sample_rate") := by
  unfold plotter
  simp only [h, dictGet_none, exc_bind_error]

/-- Any nonempty plotting loop of `segment_plotter` aborts on its first
visited segment with a `LookupError`, before any file is written: either
the per-segment extraction fails, or `plotter` raises `KeyError` on the
missing `sample_rate` key of the transient dict. -/
theorem segLoop_cons (wd : SegWD) (bpm : List ℚ) (p : String) (i : ℕ)
    (rest : List ℕ) (n : ℕ) :
    ∃ e, segLoop wd bpm p (i :: rest) n = ([], some e) ∧
      e.isLookup = true := by
  rcases extractSegment_spec wd bpm i with ⟨e, hx, hl⟩ | ⟨seg, hx, hsr⟩
  · exact ⟨e, by simp only [segLoop, hx], hl⟩
  · exact ⟨PyErr.keyError "sample_rate",
      by simp only [segLoop, hx, plotter_no_sample_rate seg.1 hsr], rfl⟩

/-- The plotting loop never raises an assertion error. -/
theorem segLoop_not_assert (wd : SegWD) (bpm : List ℚ) (p : String)
    (l : List ℕ) (n : ℕ) :
    isInvalidArg (segLoop wd bpm p l n).2 = false := by
  cases l with
  | nil => rfl
  | cons i rest =>
    obtain ⟨e, he, hl⟩ := segLoop_cons wd bpm p i rest n
    rw [he]
    cases e <;> simp_all [PyErr.isLookup, PyErr.isAssert, isInvalidArg]

/-- A nonempty `range(start, stop, step)` with positive step starts at
`start`. -/
theorem pyRange_eq_cons (start stop step : ℕ) (hstep : 0 < step)
    (h : start < stop) :
    ∃ rest, pyRange start stop step = start :: rest := by
  unfold pyRange
  have h1 : 1 ≤ (stop - start + step - 1) / step := by
    rw [Nat.le_div_iff_mul_le hstep]
    omega
  obtain ⟨n, hn⟩ : ∃ n, (stop - start + step - 1) / step = n + 1 :=
    ⟨_, (Nat.succ_pred_eq_of_pos h1).symm⟩
  rw [hn]
  exact ⟨_, rfl⟩

/- ----------------------------------------------------------------- -/
/- Claim theorems                                                     -/
/- ----------------------------------------------------------------- -/

/-- C1 (code-bug evidence).  The claim says the segment batch driver
writes one image file per visited segment, `0.png` and `1.png` for a
2-segment record with `start=0, end=None, step=1`.  On this code the
driver instead aborts at the first visited segment with
a `sample_rate` `KeyError` and writes no file at all: `segment_plotter`
builds the transient `wd_segment` dict without a `sample_rate` key
(lines 182-195) while the `plotter` of this repository unconditionally
reads the `sample_rate` key (line 81). -/
theorem segment_plotter_never_writes :
    segment_plotter segWDex [60, 60] (fun _ => true) "" 0 none 1 =
      { err := some (PyErr.keyError "sample_rate"), files := [],
        mkdirCalled := false, outPath := "" } := by
  decide

/-- C2.  The driver fails with an assertion (InvalidArgument) error,
writing no file and creating no directory, whenever `step <= 0` or
`step >= segment_count`, and whenever an explicit `end` exceeds the
segment count; for `0 < step < segment_count` and `end` within bounds no
assertion error is raised. -/
theorem segment_plotter_precondition_checks
    (wd : SegWD) (bpm : List ℚ) (isdir : String → Bool) (path : String)
    (start : ℕ) (endIdx : Option ℕ) (step : ℤ) :
    ((step ≤ 0 ∨ (wd.hr.length : ℤ) ≤ step) →
      segment_plotter wd bpm isdir path start endIdx step =
        { err := some (PyErr.assertionError "step out of range")
          files := [], mkdirCalled := false, outPath := path })
    ∧ (∀ e, endIdx = some e → wd.hr.length < e →
        isInvalidArg (segment_plotter wd bpm isdir path start endIdx step).err
          = true
        ∧ (segment_plotter wd bpm isdir path start endIdx step).files = []
        ∧ (segment_plotter wd bpm isdir path start endIdx step).mkdirCalled
          = false)
    ∧ (0 < step → step < (wd.hr.length : ℤ) →
        (∀ e ∈ endIdx, e ≤ wd.hr.length) →
        isInvalidArg (segment_plotter wd bpm isdir path start endIdx step).err
          = false) := by
  refine ⟨?_, ?_, ?_⟩
  · intro h
    simp only [segment_plotter]
    rw [if_neg (by omega)]
  · intro e he hlt
    subst he
    simp only [segment_plotter]
    by_cases hs : 0 < step ∧ step < (wd.hr.length : ℤ)
    · rw [if_pos hs, if_neg (by omega)]
      exact ⟨rfl, rfl, rfl⟩
    · rw [if_neg hs]
      exact ⟨rfl, rfl, rfl⟩
  · intro h1 h2 h3
    cases endIdx with
    | none =>
      simp only [segment_plotter, if_pos (And.intro h1 h2), segRun]
      exact segLoop_not_assert wd bpm _ _ 0
    | some e =>
      simp only [segment_plotter, if_pos (And.intro h1 h2)]
      rw [if_pos (h3 e rfl)]
      simp only [segRun]
      exact segLoop_not_assert wd bpm _ _ 0

/-- C2 witness: on the concrete 2-segment record, `step = 0` and
`step = 2` fail the step assert, `end = 3` fails the end assert and
writes nothing, and `step = 1` with default `end` raises no
InvalidArgument error. -/
theorem segment_plotter_precondition_checks_witness :
    (segment_plotter segWDex [60, 60] (fun _ => true) "p" 0 none 0 =
      { err := some (PyErr.assertionError "step out of range")
        files := [], mkdirCalled := false, outPath := "p" })
    ∧ (segment_plotter segWDex [60, 60] (fun _ => true) "p" 0 none 2 =
      { err := some (PyErr.assertionError "step out of range")
        files := [], mkdirCalled := false, outPath := "p" })
    ∧ (isInvalidArg
        (segment_plotter segWDex [60, 60] (fun _ => true) "p" 0 (some 3) 1).err
          = true
      ∧ (segment_plotter segWDex [60, 60] (fun _ => true) "p" 0 (some 3) 1).files
          = []
      ∧ (segment_plotter segWDex [60, 60] (fun _ => true) "p" 0 (some 3) 1).mkdirCalled
          = false)
    ∧ isInvalidArg
        (segment_plotter segWDex [60, 60] (fun _ => true) "p" 0 none 1).err
          = false :=
  ⟨(segment_plotter_precondition_checks segWDex [60, 60] (fun _ => true) "p"
      0 none 0).1 (Or.inl le_rfl),
   (segment_plotter_precondition_checks segWDex [60, 60] (fun _ => true) "p"
      0 none 2).1 (Or.inr (by decide)),
   (segment_plotter_precondition_checks segWDex [60, 60] (fun _ => true) "p"
      0 (some 3) 1).2.1 3 rfl (by decide),
   (segment_plotter_precondition_checks segWDex [60, 60] (fun _ => true) "p"
      0 none 1).2.2 (by decide) (by decide) (by simp)⟩

/-- C3 counterexample.  The claim says the target directory is created
whenever it does not exist, including when the caller already supplied a
trailing separator.  False: `os.makedirs` sits inside the branch that
appends the separator (lines 173-177), so for the path `out/` over a
filesystem where the directory is absent no directory is created. -/
theorem normalizePath_no_mkdir_counterexample :
    ¬ (∀ (path : String) (isdir : String → Bool),
        isdir (normalizePath path isdir).1 = false →
        (normalizePath path isdir).2 = true) := by
  intro h
  have h2 := h "out/" (fun _ => false) rfl
  exact absurd h2 (by decide)

/-- C3 amended.  A separator is appended exactly when the path is
non-empty and ends with neither separator, and `os.makedirs` is called
exactly when the separator was appended in that same branch and the
resulting directory does not exist; a caller-supplied trailing separator
therefore skips directory creation. -/
theorem normalizePath_amended (path : String) (isdir : String → Bool) :
    ((normalizePath path isdir).1 = path ++ "/" ↔
      (endsWithChar path '/' || endsWithChar path '\\') = false
        ∧ path.length ≠ 0)
    ∧ ((normalizePath path isdir).2 = true ↔
      (endsWithChar path '/' || endsWithChar path '\\') = false
        ∧ path.length ≠ 0 ∧ isdir (path ++ "/") = false) := by
  have hlen : path ≠ path ++ "/" := by
    intro hp
    have h2 := congrArg String.length hp
    rw [String.length_append] at h2
    have h3 : ("/" : String).length = 1 := by decide
    omega
  unfold normalizePath
  by_cases hc : (!(endsWithChar path '/' || endsWithChar path '\\')
      && path.length != 0) = true
  · rw [if_pos hc]
    simp only [Bool.and_eq_true, Bool.not_eq_true', bne_iff_ne] at hc
    constructor
    · simp [hc.1, hc.2]
    · simp [hc.1, hc.2, Bool.not_eq_true']
  · rw [if_neg hc]
    simp only [Bool.and_eq_true, Bool.not_eq_true', bne_iff_ne, not_and_or,
      not_not] at hc
    constructor
    · constructor
      · intro hp
        have hp2 : path = path ++ "/" := hp
        exact absurd hp2 hlen
      · rintro ⟨hsep, hne⟩
        rcases hc with h | h
        · exact absurd h (by simp [hsep])
        · exact absurd h hne
    · constructor
      · intro hfalse
        have hf2 : false = true := hfalse
        exact absurd hf2 (by simp)
      · rintro ⟨hsep, hne, -⟩
        rcases hc with h | h
        · exact absurd h (by simp [hsep])
        · exact absurd h hne

/-- C9.  When a multi-segment record lacks the `rolling_mean` key (or its
`rolling_mean` stops short of the visited indices), and the asserts pass
with a nonempty visited range, the driver fails with a `LookupError` on
the first visited segment and writes no file: `rolling_mean[i]` (line
190) is read unconditionally even though `plotter` is invoked with the
moving-average overlay left disabled. -/
theorem segment_plotter_rolling_mean_lookup
    (wd : SegWD) (bpm : List ℚ) (isdir : String → Bool) (path : String)
    (start : ℕ) (endIdx : Option ℕ) (step : ℤ)
    (hstep : 0 < step) (hstepS : step < (wd.hr.length : ℤ))
    (hend : ∀ e ∈ endIdx, e ≤ wd.hr.length)
    (hne : start < endIdx.getD wd.hr.length)
    (_hrm : wd.rolling_mean = none ∨
      ∃ l, wd.rolling_mean = some l ∧ l.length ≤ start) :
    ∃ e, (segment_plotter wd bpm isdir path start endIdx step).err = some e
      ∧ e.isLookup = true
      ∧ (segment_plotter wd bpm isdir path start endIdx step).files = [] := by
  have hstepN : 0 < step.toNat := by omega
  cases endIdx with
  | none =>
    simp only [Option.getD_none] at hne
    simp only [segment_plotter, if_pos (And.intro hstep hstepS), segRun]
    obtain ⟨rest, hcons⟩ :=
      pyRange_eq_cons start wd.hr.length step.toNat hstepN hne
    rw [hcons]
    obtain ⟨e, he, hl⟩ :=
      segLoop_cons wd bpm (normalizePath path isdir).1 start rest 0
    rw [he]
    exact ⟨e, rfl, hl, rfl⟩
  | some e0 =>
    simp only [Option.getD_some] at hne
    simp only [segment_plotter, if_pos (And.intro hstep hstepS)]
    rw [if_pos (hend e0 rfl)]
    simp only [segRun]
    obtain ⟨rest, hcons⟩ := pyRange_eq_cons start e0 step.toNat hstepN hne
    rw [hcons]
    obtain ⟨e, he, hl⟩ :=
      segLoop_cons wd bpm (normalizePath path isdir).1 start rest 0
    rw [he]
    exact ⟨e, rfl, hl, rfl⟩

/-- C9 witness: the 2-segment record without a `rolling_mean` key, with
`start=0, end=None, step=1`, fails with a lookup error and zero files. -/
theorem segment_plotter_rolling_mean_lookup_witness :
    ∃ e, (segment_plotter segWDnoRM [60, 60] (fun _ => true) "p" 0 none 1).err
        = some e
      ∧ e.isLookup = true
      ∧ (segment_plotter segWDnoRM [60, 60] (fun _ => true) "p" 0 none 1).files
        = [] :=
  segment_plotter_rolling_mean_lookup segWDnoRM [60, 60] (fun _ => true) "p"
    0 none 1 (by decide) (by decide) (by simp) (by decide) (Or.inl rfl)

/-- C4 counterexample.  The claim asserts that console output has no
sign marker on the summary values while CSV output always has explicit
sign markers.  False on both counts: the console summary rows reuse the
same space-signed spec as the table rows, and neither CSV spec carries
any sign flag. -/
theorem report_sign_counterexample :
    ¬ (hasExplicitSign (summaryValueFmt false) = false
       ∧ hasExplicitSign (tableValueFmt true) = true
       ∧ hasExplicitSign (summaryValueFmt true) = true) := by
  decide

/-- C4 amended.  Every table row is formatted with `tableValueFmt` and
every summary row with `summaryValueFmt`; console/table output uses 3
significant digits with an explicit (space) sign marker for the metrics
table AND the summary rows (they share one format spec); file/CSV output
uses 9 significant digits for metric rows and 3 significant digits for
summary rows, in both cases WITHOUT an explicit sign marker (a sign
appears only on negative values). -/
theorem report_formats (ms : List (String × ℚ)) (wd : ReportWD) (cf : Bool)
    (out : ReportOut) (h : report ms wd cf = Except.ok out) :
    (∀ l ∈ out.tableLines, l.fmt = tableValueFmt cf)
    ∧ (∀ l ∈ out.summaryLines, l.fmt = summaryValueFmt cf)
    ∧ summaryValueFmt false = tableValueFmt false
    ∧ (tableValueFmt false).precision = 3
    ∧ hasExplicitSign (tableValueFmt false) = true
    ∧ hasExplicitSign (summaryValueFmt false) = true
    ∧ (tableValueFmt true).precision = 9
    ∧ (summaryValueFmt true).precision = 3
    ∧ hasExplicitSign (tableValueFmt true) = false
    ∧ hasExplicitSign (summaryValueFmt true) = false := by
  simp only [report] at h
  by_cases h0 : wd.RR_list.length = 0
  · rw [if_pos h0] at h
    cases h
  · rw [if_neg h0] at h
    injection h with h
    subst h
    refine ⟨?_, ?_, by decide, by decide, by decide, by decide, by decide,
      by decide, by decide, by decide⟩
    · intro l hl
      simp only [List.mem_map] at hl
      obtain ⟨kv, -, rfl⟩ := hl
      rfl
    · intro l hl
      simp only [List.mem_cons, List.not_mem_nil, or_false] at hl
      rcases hl with rfl | rfl | rfl <;> rfl

/-- C4 witness: the amended format facts hold for the concrete console
report of the single measure `sdnn = 72` over `reportWDex`. -/
theorem report_formats_witness :
    (∀ l ∈ reportOutEx.tableLines, l.fmt = tableValueFmt false)
    ∧ (∀ l ∈ reportOutEx.summaryLines, l.fmt = summaryValueFmt false)
    ∧ summaryValueFmt false = tableValueFmt false
    ∧ (tableValueFmt false).precision = 3
    ∧ hasExplicitSign (tableValueFmt false) = true
    ∧ hasExplicitSign (summaryValueFmt false) = true
    ∧ (tableValueFmt true).precision = 9
    ∧ (summaryValueFmt true).precision = 3
    ∧ hasExplicitSign (tableValueFmt true) = false
    ∧ hasExplicitSign (summaryValueFmt true) = false :=
  report_formats [("sdnn", 72)] reportWDex false reportOutEx
    (by simp [report, reportWDex, reportOutEx, label_formatter]
        try norm_num)

/-- C5.  For `RR_list` of length N > 0 and k removed beats the report
succeeds and its `Excl. %` summary value is exactly `100*k/N`; for an
empty `RR_list` the report fails with an unrecovered `ZeroDivisionError`
(and, the string never having been assembled, produces no output). -/
theorem report_rejection_percentage (ms : List (String × ℚ)) (wd : ReportWD)
    (cf : Bool) :
    (wd.RR_list.length ≠ 0 →
      ∃ out, report ms wd cf = Except.ok out
        ∧ out.summaryLines.map ReportLine.label =
            ["Best MA (%)", "Excl. peaks", "Excl. %"]
        ∧ out.summaryLines.map ReportLine.value =
            [wd.best, (wd.removed_beats.length : ℚ),
             100 * (wd.removed_beats.length : ℚ) / (wd.RR_list.length : ℚ)])
    ∧ (wd.RR_list.length = 0 →
      report ms wd cf = Except.error PyErr.zeroDivisionError) := by
  constructor
  · intro h
    refine ⟨{ tableLines := ms.map
                (fun kv => ReportLine.mk (label_formatter kv.1)
                  (tableValueFmt cf) kv.2)
              summaryLines :=
                [ ReportLine.mk "Best MA (%)" (summaryValueFmt cf) wd.best
                , ReportLine.mk "Excl. peaks" (summaryValueFmt cf)
                    (wd.removed_beats.length : ℚ)
                , ReportLine.mk "Excl. %" (summaryValueFmt cf)
                    (100 * (wd.removed_beats.length : ℚ) /
                      (wd.RR_list.length : ℚ)) ] }, ?_, rfl, rfl⟩
    simp only [report]
    rw [if_neg h]
  · intro h
    simp only [report]
    rw [if_pos h]

/-- C5 witness: on `reportWDex` (N = 2, k = 2) the CSV report succeeds
with `Excl. %` equal to 100, and on `reportWDempty` (empty `RR_list`) it
fails with `ZeroDivisionError`. -/
theorem report_rejection_percentage_witness :
    (∃ out, report [] reportWDex true = Except.ok out
      ∧ out.summaryLines.map ReportLine.label =
          ["Best MA (%)", "Excl. peaks", "Excl. %"]
      ∧ out.summaryLines.map ReportLine.value =
          [reportWDex.best, (reportWDex.removed_beats.length : ℚ),
           100 * (reportWDex.removed_beats.length : ℚ) /
             (reportWDex.RR_list.length : ℚ)])
    ∧ report [] reportWDempty true = Except.error PyErr.zeroDivisionError :=
  ⟨(report_rejection_percentage [] reportWDex true).1 (by decide),
   (report_rejection_percentage [] reportWDempty true).2 rfl⟩

/-- C7.  `rotate_vec` is exactly the counter-clockwise rotation about
the origin by the angle converted to radians; as a consequence it
preserves vector magnitude, and a 90-degree rotation sends `(x, y)` to
`(-y, x)` (counter-clockwise orientation). -/
theorem rotate_vec_spec (x y angle : ℝ) :
    rotate_vec x y angle =
      (x * Real.cos (angle * Real.pi / 180) -
         y * Real.sin (angle * Real.pi / 180),
       x * Real.sin (angle * Real.pi / 180) +
         y * Real.cos (angle * Real.pi / 180))
    ∧ (rotate_vec x y angle).1 ^ 2 + (rotate_vec x y angle).2 ^ 2 =
        x ^ 2 + y ^ 2
    ∧ rotate_vec x y 90 = (-y, x) := by
  have hrad : np_radians angle = angle * Real.pi / 180 := by
    unfold np_radians
    ring
  refine ⟨?_, ?_, ?_⟩
  · simp only [rotate_vec, hrad]
  · have h := Real.sin_sq_add_cos_sq (np_radians angle)
    simp only [rotate_vec]
    linear_combination (x ^ 2 + y ^ 2) * h
  · have h90 : np_radians 90 = Real.pi / 2 := by
      unfold np_radians
      ring
    simp only [rotate_vec, h90, Real.cos_pi_div_two, Real.sin_pi_div_two]
    rw [Prod.ext_iff]
    constructor <;> simp

/-- C6.  The Poincaré plotter draws the SD1 line from the scatter mean
to the mean plus the 45-degree rotation of `(0, sd1)`, draws the SD2
line with the rotated x component negated, and overlays an unfilled
ellipse centered at the means with width `2*sd2`, height `2*sd1`, angle
45; on `x_plus=[800,820]`, `x_minus=[810,815]`, `sd1=10`, `sd2=20` the
ellipse has width 40, height 20, center `(810, 812.5)` and angle 45. -/
theorem plot_poincare_geometry (x_plus x_minus : List ℝ) (sd1 sd2 : ℝ) :
    ((plot_poincare x_plus x_minus sd1 sd2).sd1_line.x0 = np_mean x_plus
      ∧ (plot_poincare x_plus x_minus sd1 sd2).sd1_line.y0 = np_mean x_minus
      ∧ (plot_poincare x_plus x_minus sd1 sd2).sd1_line.x1 =
          np_mean x_plus + (rotate_vec 0 sd1 45).1
      ∧ (plot_poincare x_plus x_minus sd1 sd2).sd1_line.y1 =
          np_mean x_minus + (rotate_vec 0 sd1 45).2
      ∧ (plot_poincare x_plus x_minus sd1 sd2).sd2_line.x0 = np_mean x_plus
      ∧ (plot_poincare x_plus x_minus sd1 sd2).sd2_line.y0 = np_mean x_minus
      ∧ (plot_poincare x_plus x_minus sd1 sd2).sd2_line.x1 =
          np_mean x_plus - (rotate_vec 0 sd2 45).1
      ∧ (plot_poincare x_plus x_minus sd1 sd2).sd2_line.y1 =
          np_mean x_minus + (rotate_vec 0 sd2 45).2
      ∧ (plot_poincare x_plus x_minus sd1 sd2).ellipse.centerX = np_mean x_plus
      ∧ (plot_poincare x_plus x_minus sd1 sd2).ellipse.centerY = np_mean x_minus
      ∧ (plot_poincare x_plus x_minus sd1 sd2).ellipse.width = 2 * sd2
      ∧ (plot_poincare x_plus x_minus sd1 sd2).ellipse.height = 2 * sd1
      ∧ (plot_poincare x_plus x_minus sd1 sd2).ellipse.angle = 45
      ∧ (plot_poincare x_plus x_minus sd1 sd2).ellipse.filled = false)
    ∧ ((plot_poincare [800, 820] [810, 815] 10 20).ellipse.centerX = 810
      ∧ (plot_poincare [800, 820] [810, 815] 10 20).ellipse.centerY = 812.5
      ∧ (plot_poincare [800, 820] [810, 815] 10 20).ellipse.width = 40
      ∧ (plot_poincare [800, 820] [810, 815] 10 20).ellipse.height = 20
      ∧ (plot_poincare [800, 820] [810, 815] 10 20).ellipse.angle = 45) := by
  constructor
  · refine ⟨rfl, rfl, rfl, rfl, rfl, rfl, rfl, rfl, rfl, rfl, ?_, ?_, ?_, rfl⟩
    · exact mul_comm sd2 2
    · exact mul_comm sd1 2
    · norm_num [plot_poincare]
  · refine ⟨?_, ?_, ?_, ?_, ?_⟩ <;>
      norm_num [plot_poincare, np_mean, List.sum_cons, List.sum_nil]

/-- C8.  On an otherwise well-formed working-data record (all required
keys present, nonzero sample rate, array-typed `removed_beats`, and
`rolling_mean` present whenever the moving-average overlay is on), an
absent or malformed `rejected_segments` field is recovered silently: the
plotter completes without raising and draws no rejected-segment band. -/
theorem plotter_silent_rejected_segments
    (fs : ℚ) (hr pl yb rby : PySeq) (rb : List ℚ) (rm : Option PySeq)
    (bpm : ℚ) (ma : Bool) (rs : RejSegs)
    (hfs : fs ≠ 0)
    (hma : ma = true → ∃ r, rm = some r)
    (hrs : rs = RejSegs.absent ∨ rs = RejSegs.malformed) :
    ∃ fig,
      plotter
        { sample_rate := some fs, hr := some hr, peaklist := some pl
          ybeat := some yb, removed_beats := some (PySeq.nparray rb)
          removed_beats_y := some rby, rolling_mean := rm
          rejected_segments := rs }
        (some bpm) ma = Except.ok fig
      ∧ fig.bands = [] := by
  have hbands : rejectedSpans rs = [] := by
    rcases hrs with h | h <;> simp [h, rejectedSpans]
  cases ma with
  | false =>
    refine ⟨{ hr := hr, ma_drawn := false, bpm_label := bpm
              peaks_x := (np_asarray pl).elems.map (fun v => v / fs)
              peaks_y := yb
              rejected_x := rb.map (fun v => v / fs)
              rejected_y := rby
              bands := rejectedSpans rs }, ?_, hbands⟩
    simp only [plotter, dictGet_some, exc_bind_ok, if_neg hfs,
      pySeqDivScalar, Bool.false_eq_true, if_false]
  | true =>
    obtain ⟨r, hr2⟩ := hma rfl
    subst hr2
    refine ⟨{ hr := hr, ma_drawn := true, bpm_label := bpm
              peaks_x := (np_asarray pl).elems.map (fun v => v / fs)
              peaks_y := yb
              rejected_x := rb.map (fun v => v / fs)
              rejected_y := rby
              bands := rejectedSpans rs }, ?_, hbands⟩
    simp only [plotter, dictGet_some, exc_bind_ok, if_neg hfs,
      pySeqDivScalar, if_true]

/-- C8 witness: a concrete record with an absent `rejected_segments`
field renders without error and without bands. -/
theorem plotter_silent_rejected_segments_witness :
    ∃ fig,
      plotter
        { sample_rate := some 100, hr := some (PySeq.nparray [1, 2])
          peaklist := some (PySeq.nparray [0])
          ybeat := some (PySeq.pylist [1])
          removed_beats := some (PySeq.nparray [])
          removed_beats_y := some (PySeq.pylist [])
          rolling_mean := none
          rejected_segments := RejSegs.absent }
        (some 60) false = Except.ok fig
      ∧ fig.bands = [] :=
  plotter_silent_rejected_segments 100 (PySeq.nparray [1, 2])
    (PySeq.nparray [0]) (PySeq.pylist [1]) (PySeq.pylist []) [] none 60 false
    RejSegs.absent (by norm_num) (by intro h; cases h) (Or.inl rfl)

/-- C10.  `plotter` converts `peaklist` with `np.asarray` before dividing
by the sample rate (line 98) but divides `removed_beats` directly
(line 99): a plain-list `peaklist` is accepted, while a plain-list
`removed_beats` makes the rejected-peaks scatter step fail with a
`TypeError`. -/
theorem plotter_peaklist_converted_removed_beats_not
    (fs : ℚ) (hr : PySeq) (pl yb rb rby : List ℚ) (rs : RejSegs) (bpm : ℚ)
    (hfs : fs ≠ 0) :
    (∃ fig,
      plotter
        { sample_rate := some fs, hr := some hr
          peaklist := some (PySeq.pylist pl)
          ybeat := some (PySeq.pylist yb)
          removed_beats := some (PySeq.nparray rb)
          removed_beats_y := some (PySeq.pylist rby)
          rolling_mean := none, rejected_segments := rs }
        (some bpm) false = Except.ok fig
      ∧ fig.peaks_x = pl.map (fun v => v / fs))
    ∧ plotter
        { sample_rate := some fs, hr := some hr
          peaklist := some (PySeq.pylist pl)
          ybeat := some (PySeq.pylist yb)
          removed_beats := some (PySeq.pylist rb)
          removed_beats_y := some (PySeq.pylist rby)
          rolling_mean := none, rejected_segments := rs }
        (some bpm) false = Except.error PyErr.typeError := by
  constructor
  · refine ⟨{ hr := hr, ma_drawn := false, bpm_label := bpm
              peaks_x := (np_asarray (PySeq.pylist pl)).elems.map
                (fun v => v / fs)
              peaks_y := PySeq.pylist yb
              rejected_x := rb.map (fun v => v / fs)
              rejected_y := PySeq.pylist rby
              bands := rejectedSpans rs }, ?_, rfl⟩
    simp only [plotter, dictGet_some, exc_bind_ok, if_neg hfs,
      pySeqDivScalar, Bool.false_eq_true, if_false]
  · simp only [plotter, dictGet_some, exc_bind_ok, if_neg hfs,
      pySeqDivScalar, Bool.false_eq_true, if_false, exc_bind_error]

/-- C10 witness: with sample rate 100, the plain-list peaklist `[50]`
renders with peak x-coordinate `1/2`, while a plain-list
`removed_beats` raises `TypeError`. -/
theorem plotter_peaklist_converted_removed_beats_not_witness :
    (∃ fig,
      plotter
        { sample_rate := some 100, hr := some (PySeq.nparray [1, 2])
          peaklist := some (PySeq.pylist [50])
          ybeat := some (PySeq.pylist [1])
          removed_beats := some (PySeq.nparray [])
          removed_beats_y := some (PySeq.pylist [])
          rolling_mean := none, rejected_segments := RejSegs.absent }
        (some 60) false = Except.ok fig
      ∧ fig.peaks_x = [50].map (fun v => v / 100))
    ∧ plotter
        { sample_rate := some 100, hr := some (PySeq.nparray [1, 2])
          peaklist := some (PySeq.pylist [50])
          ybeat := some (PySeq.pylist [1])
          removed_beats := some (PySeq.pylist [])
          removed_beats_y := some (PySeq.pylist [])
          rolling_mean := none, rejected_segments := RejSegs.absent }
        (some 60) false = Except.error PyErr.typeError :=
  plotter_peaklist_converted_removed_beats_not 100 (PySeq.nparray [1, 2])
    [50] [1] [] [] RejSegs.absent 60 (by norm_num)

end HeartPyViz
